import Mathlib

/-!
Verification of the Personal Knowledge Graph backend core against its design
spec. The Python source is shallowly embedded: pure computation is translated
to Lean functions over ℚ (machine floats are idealized as rationals), the
external collaborators (Neo4j driver, ChromaDB vector store, the LLM client)
are passed in as explicit provider values, and each provider invocation made
by the traversal stage is recorded in a call log.
-/

namespace PKG

/-! ## String helpers (Python semantics) -/

/-- Whether the first list is an initial segment of the second. -/
def leadMatch : List Char → List Char → Bool
  | [], _ => true
  | _ :: _, [] => false
  | p :: ps, h :: hs => p == h && leadMatch ps hs

/-- Whether the pattern occurs contiguously somewhere in the haystack. -/
def hasSub (pat : List Char) : List Char → Bool
  | [] => leadMatch pat []
  | c :: rest => leadMatch pat (c :: rest) || hasSub pat rest

/-- Python membership test for strings: sub occurring in s. -/
def strIn (sub s : String) : Bool := hasSub sub.data s.data

/-- Python str.lower, character by character (ASCII; the corpus strings the
claims touch are ASCII). -/
def toLowerS (s : String) : String := String.mk (s.data.map Char.toLower)

/-- Split a character list at every separator character, keeping empty
pieces. -/
def split_when (p : Char → Bool) : List Char → List (List Char)
  | [] => [[]]
  | x :: xs =>
    let r := split_when p xs
    if p x then [] :: r
    else match r with
      | h :: t => (x :: h) :: t
      | [] => [[x]]

/-- Python str.split(sep) for a one-character separator. -/
def split_on_char (c : Char) (s : String) : List String :=
  ((split_when (fun x => x == c) s.data).map String.mk)

/-- Python str.split() with no separator argument: whitespace-separated words,
empty pieces dropped. -/
def split_whitespace (s : String) : List String :=
  ((split_when Char.isWhitespace s.data).map String.mk).filter (fun w => w ≠ "")

/-- Models the Python format f-spec .2f on a rational: the value rounded to
hundredths, printed with two decimals (half-up rounding; the half-even versus
half-up difference is immaterial to every claim, which never inspects these
strings numerically). -/
def fmt2 (q : ℚ) : String :=
  let c : Int := ⌊q * 100 + 1 / 2⌋
  let sign := if c < 0 then "-" else ""
  let a := c.natAbs
  sign ++ toString (a / 100) ++ "." ++ (if a % 100 < 10 then "0" else "") ++ toString (a % 100)

/-- Models Python round(x, 4): rounding to four decimal places (half-up; the
half-even versus half-up difference is immaterial, no claim depends on a
half-way case). -/
def round4 (q : ℚ) : ℚ := ((⌊q * 10000 + 1 / 2⌋ : Int) : ℚ) / 10000

/-! ## File search ranking (src/backend/app/api/files.py, search_files)

The embedding covers step 5 of search_files (lines 147 to 215): score fusion,
normalization, document lookup, file-type filtering, the relevance threshold,
sorting and truncation. The aggregation that builds file_scores,
file_matched_entities and file_matched_chunks (lines 77 to 145) is taken as
input, in dict insertion order, and the per-document provider lookups are
supplied by a FileSearchEnv. -/

/-- Score bundle accumulated per candidate file (files.py lines 88 to 92). -/
structure ScoreBundle where
  semantic_score : ℚ
  entity_score : ℚ
  graph_score : ℚ
deriving Repr, DecidableEq

/-- Weighted fusion of the three signals (files.py lines 154 to 158). -/
def final_score (scores : ScoreBundle) : ℚ :=
  scores.semantic_score * 0.5 + scores.entity_score * 0.3 + scores.graph_score * 0.2

/-- First pass of step 5 (files.py lines 149 to 161): the running maximum of
final scores over all scored candidates, starting from 0 and replacing on
strict increase. -/
def max_score_of (file_scores : List (String × ScoreBundle)) : ℚ :=
  file_scores.foldl (fun m p => if final_score p.2 > m then final_score p.2 else m) 0

/-- Result of neo4j_client.get_document as used by search_files. -/
structure DocInfo where
  filename : String
  upload_date : String
deriving Repr, DecidableEq

/-- A matched chunk preview stored in file_matched_chunks. -/
structure ChunkPreview where
  text : String
  score : ℚ
deriving Repr, DecidableEq

/-- Output record of the file search (schemas.py FileMatch). -/
structure FileMatch where
  file_id : String
  filename : String
  file_type : String
  upload_date : String
  relevance_score : ℚ
  matched_entities : List String
  matched_relationships : List String
  matched_chunks : List ChunkPreview
  explanation : String
deriving Repr, DecidableEq

/-- Extension extraction (files.py line 174): the piece after the last dot,
lowercased, or unknown when the filename has no dot. -/
def file_type_of (filename : String) : String :=
  if strIn "." filename then toLowerS ((split_on_char '.' filename).getLastD "") else "unknown"

/-- files.py lines 297 to 321, generate match explanation. -/
def generate_match_explanation (scores : ScoreBundle) (entities : List String)
    (relationships : List String) : String :=
  let parts : List String := []
  let parts := if scores.semantic_score > 0 then
      parts ++ ["Content similarity: " ++ fmt2 scores.semantic_score] else parts
  let parts := if entities ≠ [] then
      let entity_str := String.intercalate ", " (entities.take 3)
      let entity_str := if entities.length > 3 then
          entity_str ++ " (+" ++ toString (entities.length - 3) ++ " more)" else entity_str
      parts ++ ["Matched entities: " ++ entity_str]
    else parts
  let parts := if relationships ≠ [] then
      parts ++ ["Related through: " ++ String.intercalate ", " (relationships.take 3)] else parts
  let parts := if scores.graph_score > 0 then parts ++ ["Graph connections found"] else parts
  if parts ≠ [] then String.intercalate " | " parts else "Matched based on content"

/-- Per-document data consumed by step 5 of search_files. docInfo models
neo4j_client.get_document (None for a missing document). rel_type_list models
the value of list(set(relationship types of get_relationships_by_doc)) for a
document, in its Python set iteration order. matched_entities models
list(file_matched_entities[doc]) in set iteration order, matched_chunks the
list file_matched_chunks[doc]. -/
structure FileSearchEnv where
  docInfo : String → Option DocInfo
  rel_type_list : String → List String
  matched_entities : String → List String
  matched_chunks : String → List ChunkPreview

/-- Second pass of step 5 (files.py lines 163 to 202): normalize against the
batch maximum, drop candidates whose document record is missing, apply the
file-type filter, apply the 0.2 relevance threshold, and build the FileMatch
records in dict iteration order. -/
def ranked_files_pass (env : FileSearchEnv) (file_type_filter : Option String)
    (max_score : ℚ) : List (String × ScoreBundle) → List FileMatch
  | [] => []
  | (doc_id, scores) :: rest =>
    let raw_score := final_score scores
    let normalized_score := if max_score > 0 then raw_score / max_score else 0
    match env.docInfo doc_id with
    | none => ranked_files_pass env file_type_filter max_score rest
    | some doc_info =>
      let filename := doc_info.filename
      let fty := file_type_of filename
      let skip : Bool := match file_type_filter with
        | some f => fty != toLowerS f
        | none => false
      if skip then ranked_files_pass env file_type_filter max_score rest
      else
        let relationship_types := (env.rel_type_list doc_id).take 5
        if normalized_score < 0.2 then ranked_files_pass env file_type_filter max_score rest
        else
          { file_id := doc_id
            filename := filename
            file_type := fty
            upload_date := doc_info.upload_date
            relevance_score := round4 normalized_score
            matched_entities := (env.matched_entities doc_id).take 10
            matched_relationships := relationship_types
            matched_chunks := (env.matched_chunks doc_id).take 3
            explanation := generate_match_explanation scores (env.matched_entities doc_id)
              relationship_types }
          :: ranked_files_pass env file_type_filter max_score rest

/-- Stable descending insertion, placing the new element after every element
with an equal or larger score: together with sort_desc this models the stable
Python list.sort with reverse=True (files.py line 205). -/
def insort_desc (m : FileMatch) : List FileMatch → List FileMatch
  | [] => [m]
  | x :: xs => if x.relevance_score < m.relevance_score then m :: x :: xs
               else x :: insort_desc m xs

/-- Stable sort by relevance score, descending (files.py line 205). -/
def sort_desc (l : List FileMatch) : List FileMatch :=
  l.foldl (fun acc m => insort_desc m acc) []

/-- Step 5 of search_files (files.py lines 147 to 215): fuse, normalize,
filter, threshold, sort descending, truncate to top_k. -/
def search_files_rank (env : FileSearchEnv) (file_scores : List (String × ScoreBundle))
    (file_type_filter : Option String) (top_k : Nat) : List FileMatch :=
  let max_score := max_score_of file_scores
  let ranked := ranked_files_pass env file_type_filter max_score file_scores
  (sort_desc ranked).take top_k

/-! ## Knowledge graph records and the Neo4j traversal wrapper
(src/backend/app/database/neo4j_client.py, multi_hop_traversal) -/

/-- A sanitized Neo4j node or edge dictionary: an association list of string
properties with distinct keys. -/
abbrev RecD := List (String × String)

/-- Python dict.get with a default: the value at the first matching key. -/
def getD (r : RecD) (k d : String) : String :=
  ((r.find? (fun p => p.1 == k)).map Prod.snd).getD d

/-- Equality of two records as frozensets of their items (neo4j_client.py line
288 hashes frozenset(dict.items())). -/
def sameSet (a b : RecD) : Bool :=
  a.all (fun p => b.contains p) && b.all (fun p => a.contains p)

/-- An entity row returned by get_all_entities; create_entity always sets the
id and name properties, read back via entity.get. -/
structure GEntity where
  id : String
  name : String
deriving Repr, DecidableEq

/-- One row of the Cypher result consumed by multi_hop_traversal: the start
node, the collected connected nodes, and the collected path relationships
(none stands for a null or falsy record, matching the Python truthiness
checks). -/
structure TraversalRecord where
  start : Option RecD
  connected_entities : List (Option RecD)
  all_relationships : List RecD
deriving Repr, DecidableEq

/-- The subgraph dictionary returned by multi_hop_traversal. -/
structure Subgraph where
  entities : List RecD
  relationships : List RecD
deriving Repr, DecidableEq

/-- Python set.add on frozensets of record items: keep the record unless a
set-equal record is already present. Set iteration order is modelled as
insertion order; every claim about this output concerns membership only. -/
def addEntityRec (acc : List RecD) (e : RecD) : List RecD :=
  if acc.any (fun x => sameSet x e) then acc else acc ++ [e]

/-- The entity-collection loop of multi_hop_traversal (neo4j_client.py lines
286 to 291): add each truthy start node and connected node to the
all_entities set. -/
def collect_entities (records : List TraversalRecord) : List RecD :=
  records.foldl (fun acc record =>
    let acc := match record.start with
      | some s => addEntityRec acc s
      | none => acc
    record.connected_entities.foldl (fun a e? =>
      match e? with
      | some e => addEntityRec a e
      | none => a) acc) []

/-- The dictionary built at neo4j_client.py lines 293 to 296: the collected
entities, and the all_rels list, which is initialized at line 284 and never
appended to, so the relationships field is the empty list. -/
def multi_hop_result (records : List TraversalRecord) : Subgraph :=
  { entities := collect_entities records, relationships := [] }

/-- One provider invocation made by the traversal stage: either the
get_all_entities Cypher query with its limit, or the multi-hop traversal
Cypher query with its seed entity ids and its hop bound as interpolated into
the pattern star-range. -/
inductive ProviderCall where
  | getAllEntities (limit : Nat)
  | runTraversalQuery (entity_ids : List String) (max_hops : Int)
deriving Repr, DecidableEq

/-- The hop bound a logged call interpolates into the traversal Cypher query,
when it is a traversal call. -/
def call_hops : ProviderCall → Option Int
  | .runTraversalQuery _ h => some h
  | .getAllEntities _ => none

/-- The Neo4j database as an external collaborator: what the driver session
returns (or the exception it raises, as an error string) for each of the two
Cypher queries issued by the traversal stage. -/
structure GraphDB where
  get_all_entities : Nat → Except String (List GEntity)
  run_traversal : List String → Int → Except String (List TraversalRecord)

/-- neo4j_client.py lines 260 to 296, multi_hop_traversal: run the traversal
Cypher query (recorded in the call log together with the hop bound it
interpolates), then post-process the rows; the wrapper has no exception
handler, so a driver failure propagates. -/
def multi_hop_traversal (db : GraphDB) (start_entities : List String) (max_hops : Int) :
    Except String Subgraph × List ProviderCall :=
  match db.run_traversal start_entities max_hops with
  | .error e => (.error e, [.runTraversalQuery start_entities max_hops])
  | .ok records => (.ok (multi_hop_result records), [.runTraversalQuery start_entities max_hops])

/-! ## GraphRAG engine (src/backend/app/services/graph_rag.py) -/

/-- One vector store hit as used by the engine: the chunk text, the similarity
score, and the source_doc entry of its metadata when present. -/
structure VecResult where
  text : String
  score : ℚ
  metadata_source_doc : Option String
deriving Repr, DecidableEq

/-- The entities_to_explore set (graph_rag.py lines 181 to 192): lowercased
question entities, plus lowercased question entities that occur in a vector
result text (already members, kept for fidelity to the source loop). The
Python set is modelled as an insertion-ordered deduplicated list; it is only
ever consumed through membership. -/
def entities_to_explore (question_entities : List String) (vector_results : List VecResult) :
    List String :=
  let addStr := fun (acc : List String) (s : String) => if acc.contains s then acc else acc ++ [s]
  let s1 := question_entities.foldl (fun acc e => addStr acc (toLowerS e)) []
  vector_results.foldl (fun acc r =>
    question_entities.foldl (fun acc2 e =>
      if strIn (toLowerS e) (toLowerS r.text) then addStr acc2 (toLowerS e) else acc2) acc) s1

/-- The matching loop (graph_rag.py lines 194 to 203): an entity id is kept
when some search term and the lowercased entity name contain one another. -/
def matching_entity_ids (all_entities : List GEntity) (terms : List String) : List String :=
  all_entities.foldl (fun acc e =>
    let entity_name := toLowerS e.name
    if terms.any (fun t => strIn t entity_name || strIn entity_name t)
    then acc ++ [e.id] else acc) []

/-- graph_rag.py lines 172 to 213, the graph traversal stage: build the search
terms, list all entities (limit 500) from the graph provider, match seed ids,
and when any seeds matched run the multi-hop traversal on the first 10 of
them. The stage has no exception handler, so a provider failure propagates as
an error. The second component logs every provider invocation made. -/
def graph_traversal (db : GraphDB) (question_entities : List String)
    (vector_results : List VecResult) (max_hops : Int) :
    Except String Subgraph × List ProviderCall :=
  let terms := entities_to_explore question_entities vector_results
  match db.get_all_entities 500 with
  | .error e => (.error e, [.getAllEntities 500])
  | .ok all_entities =>
    let ids := matching_entity_ids all_entities terms
    if ids.isEmpty then (.ok { entities := [], relationships := [] }, [.getAllEntities 500])
    else
      let r := multi_hop_traversal db (ids.take 10) max_hops
      (r.1, .getAllEntities 500 :: r.2)

/-- Strip non-word characters from a token, keeping ASCII word characters
(re.sub of the non-word class in graph_rag.py line 166). -/
def clean_word (w : String) : String :=
  String.mk (w.toList.filter (fun c => c.isAlphanum || c == '_'))

/-- The local fallback of extract_question_entities (graph_rag.py lines 160 to
170): keep cleaned tokens longer than two characters that start with an upper
case letter or are an interrogative word. -/
def fallback_question_entities (question : String) : List String :=
  let words := split_whitespace question
  words.foldl (fun acc word =>
    let clean := clean_word word
    if clean ≠ "" && (clean.front.isUpper || ["who", "what", "where", "when", "how"].contains clean)
    then (if clean.length > 2 then acc ++ [clean] else acc)
    else acc) []

/-- graph_rag.py lines 134 to 170, extract_question_entities: the LLM parse
when the call succeeds, the capitalized-token heuristic on any failure. -/
def extract_question_entities (llm : Except String (List String)) (question : String) :
    List String :=
  match llm with
  | .ok es => es
  | .error _ => fallback_question_entities question

/-- A reasoning path step (schemas.py ReasoningStep). -/
structure RStep where
  step_number : Nat
  description : String
  entities_involved : List String
  relationships_used : List String
  evidence : String
deriving Repr, DecidableEq

/-- graph_rag.py lines 283 to 337, build_reasoning_path: the question analysis
step, then the optional semantic retrieval and graph traversal steps, then the
answer synthesis step, with a running step counter. -/
def build_reasoning_path (question : String) (vector_results : List VecResult)
    (graph_context : Subgraph) (answer : String) : List RStep :=
  let reasoning : List RStep := []
  let step_num : Nat := 1
  let reasoning := reasoning ++ [{
    step_number := step_num
    description := "Analyzed question to identify key concepts"
    entities_involved := []
    relationships_used := []
    evidence := question }]
  let step_num := step_num + 1
  let p :=
    if vector_results ≠ [] then
      (reasoning ++ [{
        step_number := step_num
        description := "Retrieved " ++ toString vector_results.length ++
          " relevant text chunks via semantic search"
        entities_involved := []
        relationships_used := []
        evidence := "Top result score: " ++
          fmt2 ((vector_results.headD { text := "", score := 0, metadata_source_doc := none }).score) }],
       step_num + 1)
    else (reasoning, step_num)
  let reasoning := p.1
  let step_num := p.2
  let entities := graph_context.entities
  let p2 :=
    if entities ≠ [] then
      let entity_names := (entities.take 5).map (fun e => getD e "name" "")
      (reasoning ++ [{
        step_number := step_num
        description := "Traversed knowledge graph, found " ++ toString entities.length ++
          " related entities"
        entities_involved := entity_names
        relationships_used := []
        evidence := "Key entities: " ++ String.intercalate ", " entity_names }],
       step_num + 1)
    else (reasoning, step_num)
  let reasoning := p2.1
  let step_num := p2.2
  reasoning ++ [{
    step_number := step_num
    description := "Synthesized answer from document and graph context using Gemini"
    entities_involved := []
    relationships_used := []
    evidence := if answer.length > 200 then answer.take 200 ++ "..." else answer }]

/-- The prompt assembled at graph_rag.py lines 225 to 255. -/
def build_answer_prompt (question : String) (vector_results : List VecResult)
    (graph_context : Subgraph) (mode : String) : String :=
  let vector_context := (vector_results.take 5).enum.foldl
    (fun s ir => s ++ "\n[Source " ++ toString (ir.1 + 1) ++ "]: " ++ ir.2.text.take 500) ""
  let graph_context_str := (graph_context.entities.take 20).foldl
    (fun s e => s ++ "\n- Entity: " ++ getD e "name" "" ++ " (Type: " ++ getD e "type" "" ++ ")") ""
  "You are a knowledge assistant using GraphRAG. Answer the question based on the provided context.\n\nQUESTION: "
    ++ question ++ "\n\nMODE: " ++ mode
    ++ "\n\nDOCUMENT CONTEXT (from semantic search):\n"
    ++ (if vector_context ≠ "" then vector_context else "No relevant documents found.")
    ++ "\n\nKNOWLEDGE GRAPH CONTEXT (entities and relationships):\n"
    ++ (if graph_context_str ≠ "" then graph_context_str else "No relevant graph entities found.")
    ++ "\n\nInstructions:\n1. Synthesize information from both contexts\n2. Provide a clear, comprehensive answer\n3. If information is insufficient, acknowledge it\n4. Reference specific entities when possible\n\nProvide your answer:"

/-- graph_rag.py lines 215 to 281, generate_answer: build the prompt, call the
text-generation collaborator; on success pair the answer with the reasoning
path, on any failure return the failure message with an empty reasoning
path. -/
def generate_answer (answer_llm : String → Except String String) (question : String)
    (vector_results : List VecResult) (graph_context : Subgraph) (mode : String) :
    String × List RStep :=
  let prompt := build_answer_prompt question vector_results graph_context mode
  match answer_llm prompt with
  | .ok answer => (answer, build_reasoning_path question vector_results graph_context answer)
  | .error e => ("Unable to generate answer: " ++ e, [])

/-- An evidence record (graph_rag.py lines 339 to 352, format_evidence). -/
structure EvidenceRec where
  source_doc : String
  chunk_text : String
  relevance_score : ℚ
  entities : List String
deriving Repr, DecidableEq

/-- graph_rag.py lines 339 to 352, format_evidence. -/
def format_evidence (vector_results : List VecResult) : List EvidenceRec :=
  vector_results.map (fun r => {
    source_doc := r.metadata_source_doc.getD "Unknown"
    chunk_text := r.text.take 500
    relevance_score := r.score
    entities := [] })

/-- A node of the formatted graph context. -/
structure GNode where
  id : String
  name : String
  type : String
  source_doc : String
deriving Repr, DecidableEq

/-- An edge of the formatted graph context. -/
structure GEdge where
  id : String
  source : String
  target : String
  relationship : String
deriving Repr, DecidableEq

/-- The formatted graph context (graph_rag.py lines 354 to 390). -/
structure GraphContextOut where
  nodes : List GNode
  edges : List GEdge
  node_count : Nat
  edge_count : Nat
deriving Repr, DecidableEq

/-- graph_rag.py lines 354 to 390, format_graph_context. -/
def format_graph_context (g : Subgraph) : GraphContextOut :=
  let nodes := g.entities.map (fun e => {
    id := getD e "id" ""
    name := getD e "name" ""
    type := getD e "type" ""
    source_doc := getD e "source_doc" "" : GNode })
  let edges := g.relationships.map (fun r => {
    id := getD r "id" ""
    source := getD r "source_entity_id" ""
    target := getD r "target_entity_id" ""
    relationship := getD r "relationship_type" "RELATES_TO" : GEdge })
  { nodes := nodes, edges := edges, node_count := nodes.length, edge_count := edges.length }

/-- The response dictionary of GraphRAGEngine.query; processing_time_ms is
wall-clock time and is not modelled. -/
structure QueryResponse where
  question : String
  answer : String
  reasoning_path : List RStep
  evidence : List EvidenceRec
  graph_context : GraphContextOut
  mode_used : String
deriving Repr, DecidableEq

/-- The external collaborators of GraphRAGEngine.query: the graph database,
the vector store search (search_by_text), the entity-extraction LLM call
(as its parsed entities or its failure) and the answer-generation LLM call
(as a function of the prompt). -/
structure Providers where
  db : GraphDB
  vec_search : String → Nat → Except String (List VecResult)
  entity_llm : Except String (List String)
  answer_llm : String → Except String String

/-- graph_rag.py lines 120 to 132, vector_search: the try block degrades a
vector store failure to the empty result list. -/
def vector_search (P : Providers) (question : String) (top_k : Nat) : List VecResult :=
  match P.vec_search question top_k with
  | .ok results => results
  | .error _ => []

/-- Step 1 of query (graph_rag.py lines 82 to 85): vector search only in
vector and hybrid modes. -/
def query_vector_results (P : Providers) (question : String) (mode : String) (top_k : Nat) :
    List VecResult :=
  if mode == "vector" || mode == "hybrid" then vector_search P question top_k else []

/-- Step 3 of query (graph_rag.py lines 90 to 97): graph traversal only in
graph and hybrid modes, otherwise the empty subgraph with no provider
calls. -/
def graph_stage (P : Providers) (question : String) (mode : String) (top_k : Nat)
    (max_hops : Int) : Except String Subgraph × List ProviderCall :=
  if mode == "graph" || mode == "hybrid" then
    graph_traversal P.db (extract_question_entities P.entity_llm question)
      (query_vector_results P question mode top_k) max_hops
  else (.ok { entities := [], relationships := [] }, [])

/-- graph_rag.py lines 61 to 118, GraphRAGEngine.query: the five steps of the
pipeline. query itself has no exception handler, so an error escaping the
graph traversal stage aborts the query; the call log of the traversal stage is
returned alongside. -/
def GraphRAG_query (P : Providers) (question : String) (mode : String) (top_k : Nat)
    (max_hops : Int) : Except String QueryResponse × List ProviderCall :=
  let vector_results := query_vector_results P question mode top_k
  match graph_stage P question mode top_k max_hops with
  | (.error e, calls) => (.error e, calls)
  | (.ok graph_context, calls) =>
    let ar := generate_answer P.answer_llm question vector_results graph_context mode
    (.ok {
      question := question
      answer := ar.1
      reasoning_path := ar.2
      evidence := format_evidence vector_results
      graph_context := format_graph_context graph_context
      mode_used := mode }, calls)

/-! ## Decidability of Except equality, for concrete evaluations -/

instance {ε α : Type} [DecidableEq ε] [DecidableEq α] : DecidableEq (Except ε α) := fun a b =>
  match a, b with
  | .error x, .error y =>
    if h : x = y then isTrue (by rw [h]) else isFalse (fun hc => h (by cases hc; rfl))
  | .ok x, .ok y =>
    if h : x = y then isTrue (by rw [h]) else isFalse (fun hc => h (by cases hc; rfl))
  | .error _, .ok _ => isFalse (fun hc => Except.noConfusion hc)
  | .ok _, .error _ => isFalse (fun hc => Except.noConfusion hc)

/-! ## Concrete inputs used by counterexamples and witnesses -/

/-- Document lookup with two known documents, a PDF and a TXT. -/
def exDocInfo : String → Option DocInfo
  | "A" => some { filename := "a.pdf", upload_date := "" }
  | "B" => some { filename := "b.txt", upload_date := "" }
  | _ => none

/-- A file-search environment over the two known documents. -/
def exEnv : FileSearchEnv := {
  docInfo := exDocInfo
  rel_type_list := fun _ => []
  matched_entities := fun _ => []
  matched_chunks := fun _ => [] }

/-- Candidate scores where the PDF dominates and the TXT reaches half the
maximum score. -/
def exScoresB : List (String × ScoreBundle) :=
  [("A", { semantic_score := 2, entity_score := 0, graph_score := 0 }),
   ("B", { semantic_score := 1, entity_score := 0, graph_score := 0 })]

/-- Candidate scores where the TXT has a positive score that normalizes below
the 0.2 threshold. -/
def exScoresC : List (String × ScoreBundle) :=
  [("A", { semantic_score := 2, entity_score := 0, graph_score := 0 }),
   ("B", { semantic_score := 0.38, entity_score := 0, graph_score := 0 })]

/-- A healthy graph database holding one entity and returning no traversal
rows. -/
def tDB : GraphDB := {
  get_all_entities := fun _ => .ok [{ id := "e1", name := "alice" }]
  run_traversal := fun _ _ => .ok [] }

/-- Providers over tDB with working vector store and LLM calls. -/
def tP : Providers := {
  db := tDB
  vec_search := fun _ _ => .ok []
  entity_llm := .ok ["Alice"]
  answer_llm := fun _ => .ok "fine" }

/-- A graph database whose every query raises. -/
def tDBfail : GraphDB := {
  get_all_entities := fun _ => .error "neo4j down"
  run_traversal := fun _ _ => .error "neo4j down" }

/-- Providers whose graph database is down but whose other collaborators
work. -/
def tPfail : Providers := {
  db := tDBfail
  vec_search := fun _ _ => .ok []
  entity_llm := .ok ["Alice"]
  answer_llm := fun _ => .ok "fine" }

/-- A healthy graph database holding no entities at all. -/
def tDBempty : GraphDB := {
  get_all_entities := fun _ => .ok []
  run_traversal := fun _ _ => .ok [] }

/-- Providers whose answer-generation LLM call always fails. -/
def tPsynth : Providers := {
  db := tDBempty
  vec_search := fun _ _ => .ok []
  entity_llm := .ok []
  answer_llm := fun _ => .error "LLM down" }

/-- Traversal rows in which two structurally different entity records share
the id e1. -/
def recs5 : List TraversalRecord :=
  [{ start := some [("id", "e1"), ("name", "A")]
     connected_entities := [some [("id", "e1"), ("name", "B")]]
     all_relationships := [] }]

/-- A traversal row whose path contains one relationship record, discovered
between the start entity and its neighbor. -/
def recs4 : List TraversalRecord :=
  [{ start := some [("id", "e1"), ("name", "A")]
     connected_entities := [some [("id", "e2"), ("name", "B")]]
     all_relationships := [[("id", "r1"), ("relationship_type", "KNOWS")]] }]

/-- A graph database whose traversal query discovers the relationship r1. -/
def tDB4 : GraphDB := {
  get_all_entities := fun _ => .ok [{ id := "e1", name := "alice" }]
  run_traversal := fun _ _ => .ok recs4 }

/-- Two output entity records are structurally distinct: their attribute sets
differ. -/
def distinctRec (a b : RecD) : Prop := sameSet a b = false

/-! ## Helper lemmas -/

/-- Rounding to four decimals does not take a value at or above the 0.2
threshold below it. -/
theorem round4_ge_of_ge (x : ℚ) (h : (0.2 : ℚ) ≤ x) : (0.2 : ℚ) ≤ round4 x := by
  unfold round4
  have h1 : (2000 : ℤ) ≤ ⌊x * 10000 + 1 / 2⌋ := by
    apply Int.le_floor.mpr
    push_cast
    linarith
  have h2 : (2000 : ℚ) ≤ ((⌊x * 10000 + 1 / 2⌋ : ℤ) : ℚ) := by exact_mod_cast h1
  linarith

/-- Rounding to four decimals fixes any value that is an integer multiple of
one ten-thousandth. -/
theorem round4_fixed (q : ℚ) (k : ℤ) (h : q * 10000 = (k : ℚ)) : round4 q = q := by
  unfold round4
  rw [show q * 10000 + 1 / 2 = (k : ℚ) + 1 / 2 by rw [h]]
  rw [Int.floor_int_add]
  rw [show ⌊(1 : ℚ) / 2⌋ = 0 by norm_num]
  field_simp
  linarith

/-- Frozenset equality of records is symmetric. -/
theorem sameSet_comm (a b : RecD) : sameSet a b = sameSet b a := by
  unfold sameSet
  exact Bool.and_comm _ _

/-- Adding a record to the deduplicated accumulator preserves pairwise
structural distinctness. -/
theorem pairwise_addEntityRec (acc : List RecD) (e : RecD)
    (h : acc.Pairwise distinctRec) : (addEntityRec acc e).Pairwise distinctRec := by
  unfold addEntityRec
  split
  · exact h
  · next hany =>
    rw [List.pairwise_append]
    refine ⟨h, List.pairwise_singleton _ _, ?_⟩
    intro a ha b hb
    rw [List.mem_singleton] at hb
    subst hb
    rw [Bool.not_eq_true, List.any_eq_false] at hany
    have := hany a ha
    unfold distinctRec
    simpa using this

/-- The inner fold over connected entities preserves pairwise structural
distinctness. -/
theorem pairwise_fold_connected (l : List (Option RecD)) :
    ∀ acc : List RecD, acc.Pairwise distinctRec →
      (l.foldl (fun a e? =>
        match e? with
        | some e => addEntityRec a e
        | none => a) acc).Pairwise distinctRec := by
  induction l with
  | nil => intro acc h; exact h
  | cons x xs ih =>
    intro acc h
    cases x with
    | none => exact ih acc h
    | some e => exact ih _ (pairwise_addEntityRec acc e h)

/-- The entity-collection fold preserves pairwise structural distinctness. -/
theorem pairwise_collect_aux (records : List TraversalRecord) :
    ∀ acc : List RecD, acc.Pairwise distinctRec →
      (records.foldl (fun acc record =>
        let acc := match record.start with
          | some s => addEntityRec acc s
          | none => acc
        record.connected_entities.foldl (fun a e? =>
          match e? with
          | some e => addEntityRec a e
          | none => a) acc) acc).Pairwise distinctRec := by
  induction records with
  | nil => intro acc h; exact h
  | cons r rs ih =>
    intro acc h
    cases hs : r.start with
    | none =>
      refine ih _ ?_
      simp only [List.foldl, hs]
      exact pairwise_fold_connected _ acc h
    | some s =>
      refine ih _ ?_
      simp only [List.foldl, hs]
      exact pairwise_fold_connected _ _ (pairwise_addEntityRec acc s h)

/-- Membership in a descending insertion comes from the inserted element or
the original list. -/
theorem mem_insort_desc (m x : FileMatch) (l : List FileMatch)
    (h : m ∈ insort_desc x l) : m = x ∨ m ∈ l := by
  induction l with
  | nil => simpa [insort_desc] using h
  | cons y ys ih =>
    rw [insort_desc] at h
    split at h
    · rw [List.mem_cons] at h
      rcases h with h | h
      · exact Or.inl h
      · exact Or.inr h
    · rw [List.mem_cons] at h
      rcases h with h | h
      · exact Or.inr (by rw [h]; exact List.mem_cons_self y ys)
      · rcases ih h with h2 | h2
        · exact Or.inl h2
        · exact Or.inr (List.mem_cons_of_mem y h2)

/-- Membership in the sorting fold comes from the accumulator or the
remaining input. -/
theorem mem_sort_foldl :
    ∀ (l acc : List FileMatch) (m : FileMatch),
      m ∈ l.foldl (fun a b => insort_desc b a) acc → m ∈ acc ∨ m ∈ l := by
  intro l
  induction l with
  | nil => intro acc m h; simpa using h
  | cons x xs ih =>
    intro acc m h
    simp only [List.foldl] at h
    rcases ih _ m h with h2 | h2
    · rcases mem_insort_desc m x acc h2 with h3 | h3
      · exact Or.inr (by rw [h3]; exact List.mem_cons_self x xs)
      · exact Or.inl h3
    · exact Or.inr (List.mem_cons_of_mem x h2)

/-- The stable descending sort is a permutation-level subset of its input. -/
theorem mem_sort_desc (l : List FileMatch) (m : FileMatch)
    (h : m ∈ sort_desc l) : m ∈ l := by
  unfold sort_desc at h
  rcases mem_sort_foldl l [] m h with h2 | h2
  · simp at h2
  · exact h2

/-- Every FileMatch built by the ranking pass survived the threshold test, so
its rounded relevance score is at least 0.2. -/
theorem ranked_files_pass_mem (env : FileSearchEnv) (filt : Option String) (ms : ℚ) :
    ∀ (l : List (String × ScoreBundle)) (m : FileMatch),
      m ∈ ranked_files_pass env filt ms l → (0.2 : ℚ) ≤ m.relevance_score := by
  intro l
  induction l with
  | nil => intro m hm; simp [ranked_files_pass] at hm
  | cons p rest ih =>
    intro m hm
    obtain ⟨doc_id, scores⟩ := p
    simp only [ranked_files_pass] at hm
    cases hdoc : env.docInfo doc_id with
    | none =>
      simp only [hdoc] at hm
      exact ih m hm
    | some info =>
      simp only [hdoc] at hm
      generalize (if ms > 0 then final_score scores / ms else 0) = ns at hm
      split at hm
      · exact ih m hm
      · split at hm
        · exact ih m hm
        · next hth =>
          rw [List.mem_cons] at hm
          rcases hm with h | h
          · rw [h]
            exact round4_ge_of_ge _ (le_of_not_lt hth)
          · exact ih m h

/-- Every traversal call logged by the traversal stage interpolates exactly
the hop bound the stage was given. -/
theorem graph_traversal_hops (db : GraphDB) (qe : List String) (vr : List VecResult)
    (mh : Int) :
    (((graph_traversal db qe vr mh).2).filterMap call_hops).Forall (fun h => h = mh) := by
  unfold graph_traversal
  cases hge : db.get_all_entities 500 with
  | error e => simp [call_hops]
  | ok ents =>
    by_cases hid : (matching_entity_ids ents (entities_to_explore qe vr)).isEmpty
    · simp [hid, call_hops]
    · simp only [hid, if_neg, Bool.false_eq_true, not_false_iff, if_false]
      unfold multi_hop_traversal
      cases htr : db.run_traversal
          ((matching_entity_ids ents (entities_to_explore qe vr)).take 10) mh with
      | error e => simp [call_hops, List.Forall]
      | ok records => simp [call_hops, List.Forall]

/-- The call log of a query equals the call log of its traversal stage. -/
theorem query_log_eq_stage_log (P : Providers) (question mode : String) (top_k : Nat)
    (max_hops : Int) :
    (GraphRAG_query P question mode top_k max_hops).2
      = (graph_stage P question mode top_k max_hops).2 := by
  unfold GraphRAG_query
  rcases hg : graph_stage P question mode top_k max_hops with ⟨res, calls⟩
  cases res <;> simp

/-- The ranking pass with a file-type filter is the unfiltered ranking pass
followed by a filter on the already-built matches: normalization and the
threshold act on scores computed before the filter. -/
theorem ranked_files_pass_filter_comm (env : FileSearchEnv) (ms : ℚ) (ft : String) :
    ∀ l, ranked_files_pass env (some ft) ms l
      = (ranked_files_pass env none ms l).filter (fun m => m.file_type == toLowerS ft) := by
  intro l
  induction l with
  | nil => simp [ranked_files_pass]
  | cons p rest ih =>
    obtain ⟨doc_id, scores⟩ := p
    simp only [ranked_files_pass]
    cases hdoc : env.docInfo doc_id with
    | none => simpa using ih
    | some info =>
      simp only [hdoc]
      generalize (if ms > 0 then final_score scores / ms else 0) = ns
      by_cases hty : (file_type_of info.filename == toLowerS ft) = true
      · simp only [bne, hty, Bool.not_true, Bool.false_eq_true, if_false]
        by_cases hth : ns < 0.2
        · simp [hth, ih]
        · simp [hth, ih, List.filter_cons, hty]
      · simp only [bne, Bool.not_eq_true] at hty
        simp only [bne, hty, Bool.not_false, if_true]
        by_cases hth : ns < 0.2
        · simp [hth, ih]
        · simp [hth, ih, List.filter_cons, hty]

/-! ## Claims -/

/-- C1: for every candidate score bundle with components s, e, g, the fused
score computed by the file-search ranking before normalization equals
0.5s + 0.3e + 0.2g exactly. -/
theorem c1_fusion_formula (b : ScoreBundle) :
    final_score b
      = (5 * b.semantic_score + 3 * b.entity_score + 2 * b.graph_score) / 10 := by
  unfold final_score
  norm_num
  ring

/-- C4: the multi-hop traversal result never carries any relationship: the
all_rels accumulator is never appended to, so the relationships field is
always the empty list, even when the database rows discover a relationship,
contradicting the docstring of multi_hop_traversal, which promises all
reachable nodes and edges. -/
theorem c4_relationships_never_returned :
    (∀ records : List TraversalRecord, (multi_hop_result records).relationships = [])
    ∧ (multi_hop_traversal tDB4 ["e1"] 2).1 =
        .ok { entities := [[("id", "e1"), ("name", "A")], [("id", "e2"), ("name", "B")]],
              relationships := [] }
    ∧ recs4.foldl (fun n r => n + r.all_relationships.length) 0 = 1 := by
  refine ⟨fun records => rfl, by decide, by decide⟩

/-- C5 counterexample: when two structurally different records share the id
e1, the traversal output keeps both, so the output entity ids are not
deduplicated by id. -/
theorem c5_counterexample :
    (multi_hop_result recs5).entities.map (fun e => getD e "id" "") = ["e1", "e1"]
    ∧ ¬ ((multi_hop_result recs5).entities.map (fun e => getD e "id" "")).Nodup := by
  constructor
  · decide
  · decide

/-- C5 amended: traversal deduplicates output entities by structural equality
of the whole sanitized record (the frozenset of its items), not by id: no two
output entities have the same attribute set, and records sharing an id but
differing in any attribute are all kept. -/
theorem c5_structural_dedup (records : List TraversalRecord) :
    (multi_hop_result records).entities.Pairwise distinctRec := by
  unfold multi_hop_result collect_entities
  exact pairwise_collect_aux records [] List.Pairwise.nil

/-- C6 counterexample: with no matching seed entities the traversal stage
returns the empty subgraph but still issues one get_all_entities call to the
graph provider: the provider call count is 1, not 0. -/
theorem c6_counterexample :
    graph_traversal tDBempty [] [] 2
      = (.ok { entities := [], relationships := [] }, [.getAllEntities 500])
    ∧ (graph_traversal tDBempty [] [] 2).2.length = 1 := by
  constructor
  · decide
  · decide

/-- C6 amended: whenever the matched seed set is empty, the traversal stage
returns the empty subgraph and issues no multi-hop traversal query; its only
provider call is the single get_all_entities listing used to match seeds. -/
theorem c6_empty_seed_no_traversal (db : GraphDB) (question_entities : List String)
    (vector_results : List VecResult) (max_hops : Int) (ents : List GEntity)
    (h1 : db.get_all_entities 500 = .ok ents)
    (h2 : matching_entity_ids ents (entities_to_explore question_entities vector_results) = []) :
    graph_traversal db question_entities vector_results max_hops
      = (.ok { entities := [], relationships := [] }, [.getAllEntities 500]) := by
  unfold graph_traversal
  simp [h1, h2]

/-- C6 amended, applied at a concrete database with no entities. -/
theorem c6_empty_seed_no_traversal_witness :
    tDBempty.get_all_entities 500 = .ok []
    ∧ matching_entity_ids [] (entities_to_explore [] []) = []
    ∧ graph_traversal tDBempty [] [] 2
        = (.ok { entities := [], relationships := [] }, [.getAllEntities 500]) :=
  ⟨rfl, rfl, c6_empty_seed_no_traversal tDBempty [] [] 2 [] rfl rfl⟩

/-- C2 counterexample: with the graph provider down, a hybrid query does not
complete with an empty subgraph; the provider error escapes the query. -/
theorem c2_counterexample :
    (GraphRAG_query tPfail "q" "hybrid" 5 2).1 = .error "neo4j down" := by
  have h : graph_stage tPfail "q" "hybrid" 5 2
      = (.error "neo4j down", [.getAllEntities 500]) := by decide
  simp [GraphRAG_query, h]

/-- C2 amended: in the graph and hybrid modes, a graph provider failure in the
traversal stage propagates out of the query as that very error instead of
degrading to an empty subgraph; the query aborts rather than returning a
result. -/
theorem c2_graph_failure_propagates (P : Providers) (question mode : String)
    (top_k : Nat) (max_hops : Int) (e : String)
    (hmode : mode = "graph" ∨ mode = "hybrid")
    (herr : P.db.get_all_entities 500 = .error e) :
    (GraphRAG_query P question mode top_k max_hops).1 = .error e := by
  have hg : graph_stage P question mode top_k max_hops = (.error e, [.getAllEntities 500]) := by
    rcases hmode with h | h <;> subst h <;>
      simp [graph_stage, graph_traversal, herr]
  simp [GraphRAG_query, hg]

/-- C2 amended, applied at a concrete set of providers whose graph database
is down. -/
theorem c2_graph_failure_propagates_witness :
    ("hybrid" = "graph" ∨ "hybrid" = "hybrid")
    ∧ tPfail.db.get_all_entities 500 = .error "neo4j down"
    ∧ (GraphRAG_query tPfail "q" "hybrid" 5 2).1 = .error "neo4j down" :=
  ⟨Or.inr rfl, rfl,
    c2_graph_failure_propagates tPfail "q" "hybrid" 5 2 "neo4j down" (Or.inr rfl) rfl⟩

/-- C3 counterexample: a caller-supplied maxHops of 7 reaches the traversal
Cypher query unchanged; the hop bound used is 7, which exceeds the claimed
system maximum of 6. -/
theorem c3_counterexample :
    ((GraphRAG_query tP "q" "hybrid" 5 7).2).filterMap call_hops = [7]
    ∧ ¬ ((7 : Int) ≤ 6) := by
  constructor
  · decide
  · decide

/-- C3 amended: the hop bound interpolated into every traversal query equals
the caller-supplied max_hops unchanged; no clamp to a system maximum is
applied anywhere on the query path. -/
theorem c3_hops_passthrough (P : Providers) (question mode : String) (top_k : Nat)
    (max_hops : Int) :
    (((GraphRAG_query P question mode top_k max_hops).2).filterMap call_hops).Forall
      (fun h => h = max_hops) := by
  rw [query_log_eq_stage_log]
  unfold graph_stage
  split
  · exact graph_traversal_hops P.db _ _ max_hops
  · simp [List.Forall]

/-- C7: every file match returned by the search has rounded relevance score at
least 0.2; candidates below the threshold are excluded, not demoted. -/
theorem c7_relevance_threshold (env : FileSearchEnv)
    (file_scores : List (String × ScoreBundle)) (file_type_filter : Option String)
    (top_k : Nat) :
    (search_files_rank env file_scores file_type_filter top_k).Forall
      (fun m => (0.2 : ℚ) ≤ m.relevance_score) := by
  rw [List.forall_iff_forall_mem]
  intro m hm
  unfold search_files_rank at hm
  have hm2 := List.take_subset _ _ hm
  have hm3 := mem_sort_desc _ _ hm2
  exact ranked_files_pass_mem env file_type_filter (max_score_of file_scores)
    file_scores m hm3

/-- C9: when answer synthesis fails and the traversal stage succeeded, the
query still returns a well-formed response whose answer is the failure
message and whose reasoning path is empty. -/
theorem c9_synthesis_failure_degrades (P : Providers) (question mode : String)
    (top_k : Nat) (max_hops : Int) (e : String) (g : Subgraph)
    (calls : List ProviderCall)
    (hllm : ∀ p, P.answer_llm p = .error e)
    (hg : graph_stage P question mode top_k max_hops = (.ok g, calls)) :
    ∃ r, (GraphRAG_query P question mode top_k max_hops).1 = .ok r
      ∧ r.answer = "Unable to generate answer: " ++ e
      ∧ r.reasoning_path = []
      ∧ r.question = question
      ∧ r.mode_used = mode := by
  unfold GraphRAG_query
  rw [hg]
  simp only [generate_answer, hllm]
  exact ⟨_, rfl, rfl, rfl, rfl, rfl⟩

/-- C9, applied at a concrete set of providers whose text generation always
fails. -/
theorem c9_synthesis_failure_degrades_witness :
    (∀ p, tPsynth.answer_llm p = .error "LLM down")
    ∧ ∃ r, (GraphRAG_query tPsynth "q" "vector" 5 2).1 = .ok r
        ∧ r.answer = "Unable to generate answer: " ++ "LLM down"
        ∧ r.reasoning_path = []
        ∧ r.question = "q"
        ∧ r.mode_used = "vector" :=
  ⟨fun _ => rfl,
    c9_synthesis_failure_degrades tPsynth "q" "vector" 5 2 "LLM down"
      { entities := [], relationships := [] } [] (fun _ => rfl) (by decide)⟩

/-- C10: the normalization maximum and the 0.2 threshold are computed over all
scored candidates before the file-type filter and the missing-document check:
the truncated output is the sort of a single pass normalized by the maximum
over the whole batch; filtering commutes to a post-filter on the already
normalized matches; on the concrete batch exScoresB the only surviving txt
file keeps relevance one half, strictly below 1, and on exScoresC a txt file
with positive fused score is excluded entirely by the threshold. -/
theorem c10_normalization_precedes_filters :
    (∀ (env : FileSearchEnv) (fs : List (String × ScoreBundle)) (filt : Option String)
        (k : Nat),
      search_files_rank env fs filt k
        = (sort_desc (ranked_files_pass env filt (max_score_of fs) fs)).take k)
    ∧ (∀ (env : FileSearchEnv) (ms : ℚ) (ft : String) (l : List (String × ScoreBundle)),
      ranked_files_pass env (some ft) ms l
        = (ranked_files_pass env none ms l).filter (fun m => m.file_type == toLowerS ft))
    ∧ (search_files_rank exEnv exScoresB (some "txt") 10).map (fun m => m.relevance_score)
        = [1 / 2]
    ∧ (1 : ℚ) / 2 < 1
    ∧ search_files_rank exEnv exScoresC (some "txt") 10 = []
    ∧ file_type_of "b.txt" = "txt"
    ∧ 0 < final_score { semantic_score := 0.38, entity_score := 0, graph_score := 0 } := by
  refine ⟨fun env fs filt k => rfl,
    fun env ms ft l => ranked_files_pass_filter_comm env ms ft l, ?_, by norm_num, ?_,
    by decide, by norm_num [final_score]⟩
  · have hr : round4 ((1 : ℚ) / 2) = 1 / 2 := round4_fixed _ 5000 (by norm_num)
    norm_num [search_files_rank, max_score_of, List.foldl, ranked_files_pass, exEnv,
      exScoresB, exDocInfo, final_score, file_type_of, sort_desc, insort_desc, hr,
      toLowerS, strIn, hasSub, leadMatch, split_on_char, split_when]
  · norm_num [search_files_rank, max_score_of, List.foldl, ranked_files_pass, exEnv,
      exScoresC, exDocInfo, final_score, file_type_of, sort_desc, insort_desc,
      toLowerS, strIn, hasSub, leadMatch, split_on_char, split_when]

/-- C8: for every combination of skipped or included optional steps, the
reasoning path step numbers form the contiguous sequence 1..N, starting with
the question-analysis step and ending with the answer-synthesis step. -/
theorem c8_reasoning_steps_contiguous (question : String) (vector_results : List VecResult)
    (graph_context : Subgraph) (answer : String) :
    ((build_reasoning_path question vector_results graph_context answer).map
        (fun s => s.step_number))
      = List.range' 1 (build_reasoning_path question vector_results graph_context answer).length
    ∧ ((build_reasoning_path question vector_results graph_context answer).head?.map
        (fun s => s.description)) = some "Analyzed question to identify key concepts"
    ∧ ((build_reasoning_path question vector_results graph_context answer).getLast?.map
        (fun s => s.description))
      = some "Synthesized answer from document and graph context using Gemini" := by
  obtain ⟨ents, rels⟩ := graph_context
  rcases vector_results with _ | ⟨v, vs⟩ <;> rcases ents with _ | ⟨g, gs⟩ <;>
    simp [build_reasoning_path, List.range']

end PKG
